import Mathlib

/-!
Shallow embedding, in Lean 4, of the subscription / usage-ledger and RAG
retrieval core of the fix-note backend
(`src/backend/src/services/notes_service.py`,
`src/backend/src/services/rag_service.py`,
`src/backend/src/db/models.py`), together with theorems settling the
specification claims about it.

Modelling conventions:
- timestamps are `Nat` seconds; Python's `datetime.utcnow() > t` becomes
  `t < now`;
- Python floats (similarity scores) become `ℚ`;
- database tables become Lean lists of row structures, and each Supabase
  query is translated by hand (`select ... eq` becomes `List.filter` +
  `head?`, `update ... eq` becomes `List.map` with a guard, and the
  returned `result.data` length test becomes the corresponding predicate
  on the list);
- exceptions from providers / the store are `Except Unit` results or an
  explicit success flag supplied by the environment.
-/

namespace FixNote

/-- The user row fields read and written by the subscription logic of
`NotesService` (`db/models.py`, table `users`).  `subscription_plan` is
`Option` because `get_subscription_info` reads it with
`user_data.get("subscription_plan", "trial")`. -/
structure UserRow where
  id : Nat
  subscription_plan : Option String
  subscription_started_at : Option Nat
  subscription_expires_at : Option Nat
  trial_started_at : Option Nat
  trial_ends_at : Option Nat
  deriving Repr, DecidableEq

/-- `SubscriptionLimits` from `db/models.py` (lines 120-129).  A `none`
quota means unlimited. -/
structure SubscriptionLimits where
  summaries_per_month : Option Nat
  voice_minutes_per_month : Option Nat
  ai_chat_enabled : Bool
  ai_chat_fast : Bool
  sync_enabled : Bool
  auto_sync : Bool
  price_monthly_stars : Nat
  price_yearly_stars : Nat
  deriving Repr, DecidableEq

/-- The pydantic defaults of `SubscriptionLimits()`: every field takes the
default declared in `db/models.py` lines 122-129 (`None`, `None`, `False`,
`False`, `False`, `False`, `0`, `0`). -/
def defaultLimits : SubscriptionLimits :=
  ⟨none, none, false, false, false, false, 0, 0⟩

/-- `UsageStats` from `db/models.py` (lines 132-136); all counters default
to 0. -/
structure UsageStats where
  summaries_used : Nat
  voice_seconds_used : Nat
  chat_messages_used : Nat
  deriving Repr, DecidableEq

def zeroUsage : UsageStats := ⟨0, 0, 0⟩

/-- Plan resolution with lazy expiry: the first part of
`NotesService.get_subscription_info` (`notes_service.py` lines 234-258).
Reads the stored plan (defaulting to `"trial"`), downgrades an expired
trial to `"free"` with a write-through `update` of the user row, then does
the same for an expired `"pro"`/`"ultra"` subscription.  Returns the
resolved plan together with the (possibly updated) user row. -/
def resolve_plan (u : UserRow) (now : Nat) : String × UserRow :=
  let plan := u.subscription_plan.getD "trial"
  let step1 : String × UserRow :=
    if plan = "trial" then
      match u.trial_ends_at with
      | some t =>
        if t < now then
          ("free", { u with subscription_plan := some "free" })
        else (plan, u)
      | none => (plan, u)
    else (plan, u)
  let plan1 := step1.1
  let u1 := step1.2
  if plan1 = "pro" ∨ plan1 = "ultra" then
    match u1.subscription_expires_at with
    | some t =>
      if t < now then
        ("free", { u1 with subscription_plan := some "free" })
      else (plan1, u1)
    | none => (plan1, u1)
  else (plan1, u1)

/-- Limits lookup: the middle part of `get_subscription_info`
(`notes_service.py` lines 260-278).  The immutable `subscription_limits`
reference table is a function from plan name to an optional row; when the
query returns no row the code falls back to `SubscriptionLimits()`, i.e.
`defaultLimits`. -/
def get_limits (table : String → Option SubscriptionLimits) (plan : String) :
    SubscriptionLimits :=
  match table plan with
  | some l => l
  | none => defaultLimits

/-- Usage lookup: the last part of `get_subscription_info`
(`notes_service.py` lines 280-294): the current month's row if present,
otherwise `UsageStats()` — reading never creates a row. -/
def get_usage (row : Option UsageStats) : UsageStats :=
  match row with
  | some s => s
  | none => zeroUsage

/-- `NotesService.activate_subscription` (`notes_service.py` lines
314-329): sets the plan, `subscription_started_at = now` and
`subscription_expires_at = now + 30 days` when `billing_period` is
`"monthly"`, else `now + 365 days`. -/
def activate_subscription (u : UserRow) (plan : String)
    (billing_period : String) (now : Nat) : UserRow :=
  let expires_at := if billing_period = "monthly" then now + 30 * 86400
    else now + 365 * 86400
  { u with
    subscription_plan := some plan
    subscription_started_at := some now
    subscription_expires_at := some expires_at }

/-- The closed reason enum of `canUseFeature`
(spec §6: `free_plan | not_available | limit_reached | none`). -/
inductive Reason where
  | free_plan
  | not_available
  | limit_reached
  | none
  deriving Repr, DecidableEq

/-- Modelled from the spec: `NotesService.can_use_feature` is called from
`bot.py` (lines 219-239, 370, 418, 562) and `api.py` (line 236) but its
definition is absent from the sources provided; this follows the spec's
decision table (§4.2) literally.  It resolves the plan first (via
`resolve_plan`), looks up the plan's limits, and decides per feature:
chat is denied with `free_plan` on the free tier and `not_available`
on any other plan without `ai_chat_enabled`; voice is denied with
`free_plan` when the plan forbids voice entirely (quota 0) and with
`limit_reached` once `voice_seconds_used ≥ voice_minutes_per_month * 60`;
summary is denied with `limit_reached` once
`summaries_used ≥ summaries_per_month`; a `none` quota is unlimited. -/
def can_use_feature (u : UserRow) (table : String → Option SubscriptionLimits)
    (usage : UsageStats) (now : Nat) (feature : String) :
    Bool × String × Reason :=
  let plan := (resolve_plan u now).1
  let limits := get_limits table plan
  if feature = "chat" then
    if limits.ai_chat_enabled then (true, plan, Reason.none)
    else if plan = "free" then (false, plan, Reason.free_plan)
    else (false, plan, Reason.not_available)
  else if feature = "voice" then
    match limits.voice_minutes_per_month with
    | Option.none => (true, plan, Reason.none)
    | some q =>
      if q = 0 then (false, plan, Reason.free_plan)
      else if q * 60 ≤ usage.voice_seconds_used then
        (false, plan, Reason.limit_reached)
      else (true, plan, Reason.none)
  else if feature = "summary" then
    match limits.summaries_per_month with
    | Option.none => (true, plan, Reason.none)
    | some q =>
      if q ≤ usage.summaries_used then (false, plan, Reason.limit_reached)
      else (true, plan, Reason.none)
  else (true, plan, Reason.none)

/-! ### Usage ledger: `increment_usage` and its read / write steps -/

/-- A row of the `usage_stats` table. -/
structure UsageRow where
  id : Nat
  user_id : Nat
  month_start : Nat
  summaries_used : Nat
  voice_seconds_used : Nat
  chat_messages_used : Nat
  deriving Repr, DecidableEq

/-- The three `usage_type` values accepted by `increment_usage`. -/
inductive UsageType where
  | voice_seconds
  | summaries
  | chat_messages
  deriving Repr, DecidableEq

def UsageType.get (t : UsageType) (r : UsageRow) : Nat :=
  match t with
  | voice_seconds => r.voice_seconds_used
  | summaries => r.summaries_used
  | chat_messages => r.chat_messages_used

def UsageType.set (t : UsageType) (r : UsageRow) (v : Nat) : UsageRow :=
  match t with
  | voice_seconds => { r with voice_seconds_used := v }
  | summaries => { r with summaries_used := v }
  | chat_messages => { r with chat_messages_used := v }

/-- The read step of `NotesService.increment_usage` (`notes_service.py`
lines 337-340): `select * from usage_stats where user_id = uid and
month_start = month`, taking the first row if any. -/
def usage_read (s : List UsageRow) (uid month : Nat) : Option UsageRow :=
  (s.filter (fun r => r.user_id = uid ∧ r.month_start = month)).head?

/-- The write step of `increment_usage` (`notes_service.py` lines
342-358), parameterised by the value `readResult` obtained from the
earlier read step: when a row was read, write the absolute value
`t.get readResult + amount` into the row with that id; otherwise insert a
fresh row carrying `amount` in the selected field and zeros elsewhere. -/
def usage_write (s : List UsageRow) (uid month : Nat) (t : UsageType)
    (amount : Nat) (freshId : Nat) (readResult : Option UsageRow) :
    List UsageRow :=
  match readResult with
  | some row =>
    s.map (fun r => if r.id = row.id then t.set r (t.get row + amount) else r)
  | Option.none =>
    s ++ [t.set ⟨freshId, uid, month, 0, 0, 0⟩ amount]

/-- `NotesService.increment_usage` run in isolation: the read step
followed immediately by the write step, returning `true` (the source
returns `False` only when the storage client raises). -/
def increment_usage (s : List UsageRow) (uid month : Nat) (t : UsageType)
    (amount : Nat) (freshId : Nat) : Bool × List UsageRow :=
  (true, usage_write s uid month t amount freshId (usage_read s uid month))

/-! ### RAG service -/

/-- `SearchResult` from `db/models.py` (lines 79-85); similarity is `ℚ`
in place of the source's float. -/
structure SearchResult where
  id : Nat
  content : String
  summary : Option String
  similarity : ℚ
  created_at : Nat
  deriving Repr, DecidableEq

/-- The fixed truncation budget of `RAGService.get_embedding`
(`rag_service.py` line 33): `max_chars = 30000`. -/
def max_chars : Nat := 30000

/-- `RAGService.get_embedding` (`rag_service.py` lines 22-45): truncate
the text to `max_chars` characters when it is longer, then call the
provider (`embed`); a provider error is re-raised, which `Except.error`
models.  Text is `List Char`, mirroring Python string slicing. -/
def get_embedding (embed : List Char → Except Unit (List ℚ))
    (text : List Char) : Except Unit (List ℚ) :=
  let text := if max_chars < text.length then text.take max_chars else text
  embed text

/-- A note row as seen by `index_note`: its id and its nullable embedding
column. -/
structure NoteEmbRow where
  id : String
  embedding : Option (List ℚ)
  deriving Repr, DecidableEq

/-- `RAGService.index_note` (`rag_service.py` lines 47-70): compute the
embedding, then `update notes set embedding where id = note_id` and
return whether any row matched.  Any exception — from the provider or
from the store (`storeOk = false`; the store's own writes are atomic, so
a raising `execute` leaves the table untouched) — is caught and turned
into `false` with the store unchanged. -/
def index_note (embed : List Char → Except Unit (List ℚ)) (storeOk : Bool)
    (store : List NoteEmbRow) (note_id : String) (text : List Char) :
    Bool × List NoteEmbRow :=
  match get_embedding embed text with
  | Except.error _ => (false, store)
  | Except.ok emb =>
    if storeOk then
      (store.any (fun n => n.id = note_id),
       store.map (fun n =>
         if n.id = note_id then { n with embedding := some emb } else n))
    else (false, store)

/-- The environment of `RAGService.search`: the embedding provider and
the `search_notes` RPC of the vector store, each of which can raise. -/
structure RagEnv where
  embed : List Char → Except Unit (List ℚ)
  rpc : List ℚ → Nat → String → Except Unit (List SearchResult)

/-- `RAGService.search` (`rag_service.py` lines 72-102): embed the query,
call the `search_notes` RPC with `(query_embedding, match_count = limit,
match_user_id = user_id)`, and build the result list; any exception is
caught and an empty list returned (`if not result.data: return []` is the
identity on the empty list). -/
def search (env : RagEnv) (query : List Char) (user_id : String)
    (limit : Nat) : List SearchResult :=
  match get_embedding env.embed query with
  | Except.error _ => []
  | Except.ok emb =>
    match env.rpc emb limit user_id with
    | Except.error _ => []
    | Except.ok data => data

/-- `RAGService.search_with_threshold` (`rag_service.py` lines 104-120):
one call to `search`, then the list comprehension keeping exactly the
results with `r.similarity >= min_similarity`. -/
def search_with_threshold (env : RagEnv) (query : List Char)
    (user_id : String) (limit : Nat) (min_similarity : ℚ) :
    List SearchResult :=
  (search env query user_id limit).filter
    (fun r => min_similarity ≤ r.similarity)

/-! ### Note store: `update_note` -/

/-- A row of the `notes` table (`db/models.py` lines 35-46), without the
embedding column, which `update_note` never touches. -/
structure NoteRow where
  id : Nat
  user_id : Nat
  content : String
  summary : Option String
  source : String
  duration_seconds : Option Nat
  share_token : Option String
  is_public : Bool
  deriving Repr, DecidableEq

/-- `NoteUpdate` from `db/models.py` (lines 67-70): both fields optional;
a `none` field is unset and excluded by
`model_dump(exclude_unset=True)`. -/
structure NoteUpdate where
  content : Option String
  summary : Option String
  deriving Repr, DecidableEq

/-- `NotesService.get_note` (`notes_service.py` lines 78-86):
`select * from notes where id = note_id and user_id = user_id`, first row
if any. -/
def get_note (store : List NoteRow) (note_id user_id : Nat) :
    Option NoteRow :=
  (store.filter (fun n => n.id = note_id ∧ n.user_id = user_id)).head?

/-- Application of the set fields of a `NoteUpdate` to a row. -/
def applyUpdate (upd : NoteUpdate) (n : NoteRow) : NoteRow :=
  { n with
    content := (upd.content).getD n.content
    summary := match upd.summary with
      | some s => some s
      | Option.none => n.summary }

/-- `NotesService.update_note` (`notes_service.py` lines 96-109): when
`model_dump(exclude_unset=True)` is empty it performs no write and
returns `get_note`; otherwise it updates the rows matching
`(note_id, user_id)` and returns the first updated row, or `none` when
nothing matched. -/
def update_note (store : List NoteRow) (note_id user_id : Nat)
    (upd : NoteUpdate) : Option NoteRow × List NoteRow :=
  if upd.content = Option.none ∧ upd.summary = Option.none then
    (get_note store note_id user_id, store)
  else
    let updated := (store.filter
      (fun n => n.id = note_id ∧ n.user_id = user_id)).map (applyUpdate upd)
    (updated.head?,
     store.map (fun n =>
       if n.id = note_id ∧ n.user_id = user_id then applyUpdate upd n else n))

/-! ## Theorems settling the claims -/

/-- C4: a `trial` user whose `trial_ends_at` is strictly in the past is
downgraded: `resolve_plan` returns `"free"` and persists `"free"` on the
user row, and every subsequent read of the updated row returns `"free"`
with no further write; the same holds for a `pro`/`ultra` user whose
`subscription_expires_at` is in the past; and a plan with no expiry
timestamp set never auto-expires (row returned unchanged). -/
theorem resolve_plan_lazy_expiry (u : UserRow) (now t : Nat) :
    (u.subscription_plan = some "trial" → u.trial_ends_at = some t →
      t < now →
      resolve_plan u now =
        ("free", { u with subscription_plan := some "free" }) ∧
      ∀ now2, resolve_plan { u with subscription_plan := some "free" } now2 =
        ("free", { u with subscription_plan := some "free" })) ∧
    (∀ p, u.subscription_plan = some p → (p = "pro" ∨ p = "ultra") →
      u.subscription_expires_at = some t → t < now →
      resolve_plan u now =
        ("free", { u with subscription_plan := some "free" }) ∧
      ∀ now2, resolve_plan { u with subscription_plan := some "free" } now2 =
        ("free", { u with subscription_plan := some "free" })) ∧
    (u.subscription_plan = some "trial" → u.trial_ends_at = Option.none →
      resolve_plan u now = ("trial", u)) ∧
    (∀ p, u.subscription_plan = some p → (p = "pro" ∨ p = "ultra") →
      u.subscription_expires_at = Option.none →
      resolve_plan u now = (p, u)) := by
  refine ⟨?_, ?_, ?_, ?_⟩
  · intro h1 h2 h3
    constructor
    · simp [resolve_plan, h1, h2, h3]
    · intro now2
      simp [resolve_plan]
  · intro p h1 hp h2 h3
    constructor
    · rcases hp with hp | hp <;> subst hp <;> simp [resolve_plan, h1, h2, h3]
    · intro now2
      simp [resolve_plan]
  · intro h1 h2
    simp [resolve_plan, h1, h2]
  · intro p h1 hp h2
    rcases hp with hp | hp <;> subst hp <;> simp [resolve_plan, h1, h2]

/-- C4 witness: concrete expired-trial, expired-pro, indefinite-trial and
indefinite-ultra rows, each run through `resolve_plan_lazy_expiry`. -/
theorem resolve_plan_lazy_expiry_witness :
    (resolve_plan ⟨1, some "trial", Option.none, Option.none, some 0, some 5⟩ 10 =
      ("free", ⟨1, some "free", Option.none, Option.none, some 0, some 5⟩)) ∧
    (resolve_plan ⟨2, some "pro", some 0, some 5, Option.none, Option.none⟩ 10 =
      ("free", ⟨2, some "free", some 0, some 5, Option.none, Option.none⟩)) ∧
    (resolve_plan ⟨3, some "trial", Option.none, Option.none, Option.none, Option.none⟩ 10 =
      ("trial", ⟨3, some "trial", Option.none, Option.none, Option.none, Option.none⟩)) ∧
    (resolve_plan ⟨4, some "ultra", some 0, Option.none, Option.none, Option.none⟩ 10 =
      ("ultra", ⟨4, some "ultra", some 0, Option.none, Option.none, Option.none⟩)) :=
  ⟨((resolve_plan_lazy_expiry ⟨1, some "trial", Option.none, Option.none,
      some 0, some 5⟩ 10 5).1 rfl rfl (by decide)).1,
   ((resolve_plan_lazy_expiry ⟨2, some "pro", some 0, some 5, Option.none,
      Option.none⟩ 10 5).2.1 "pro" rfl (Or.inl rfl) rfl (by decide)).1,
   (resolve_plan_lazy_expiry ⟨3, some "trial", Option.none, Option.none,
      Option.none, Option.none⟩ 10 0).2.2.1 rfl rfl,
   (resolve_plan_lazy_expiry ⟨4, some "ultra", some 0, Option.none,
      Option.none, Option.none⟩ 10 0).2.2.2 "ultra" rfl (Or.inr rfl) rfl⟩

/-- C3 counterexample: for a plan with no row in the reference table the
fallback `SubscriptionLimits()` does not have all quotas zero — both
monthly quotas are `none`, which the spec defines as unlimited, not
`some 0`. -/
theorem get_limits_unknown_quotas_not_zero :
    (get_limits (fun _ => Option.none) "enterprise").summaries_per_month ≠ some 0 ∧
    (get_limits (fun _ => Option.none) "enterprise").voice_minutes_per_month ≠ some 0 := by
  constructor <;> simp [get_limits, defaultLimits]

/-- C3 (amended): for every plan with no row in the reference data,
`get_limits` returns the fixed pydantic default instead of failing: all
boolean entitlements disabled and prices zero, but both monthly quotas
null — which the spec reads as unlimited, not as zero. -/
theorem get_limits_unknown_fallback
    (table : String → Option SubscriptionLimits) (plan : String)
    (h : table plan = Option.none) :
    get_limits table plan = defaultLimits ∧
    defaultLimits.ai_chat_enabled = false ∧
    defaultLimits.ai_chat_fast = false ∧
    defaultLimits.sync_enabled = false ∧
    defaultLimits.auto_sync = false ∧
    defaultLimits.price_monthly_stars = 0 ∧
    defaultLimits.price_yearly_stars = 0 ∧
    defaultLimits.summaries_per_month = Option.none ∧
    defaultLimits.voice_minutes_per_month = Option.none := by
  refine ⟨?_, rfl, rfl, rfl, rfl, rfl, rfl, rfl, rfl⟩
  simp [get_limits, h]

/-- C3 witness: the empty reference table has no row for
`"enterprise"`, and `get_limits` falls back to `defaultLimits`. -/
theorem get_limits_unknown_fallback_witness :
    get_limits (fun _ => Option.none) "enterprise" = defaultLimits :=
  (get_limits_unknown_fallback (fun _ => Option.none) "enterprise" rfl).1

/-- C8: for `plan ∈ {pro, ultra}` and `billing_period ∈ {monthly,
yearly}`, `activate_subscription` stamps `subscription_started_at = now`
and `subscription_expires_at = now + 30 days` (monthly) or `now + 365
days` (yearly), and an immediate `resolve_plan` on the updated row
returns that plan with the row unchanged. -/
theorem activate_subscription_round_trip (u : UserRow) (p period : String)
    (now : Nat) (hp : p = "pro" ∨ p = "ultra")
    (hper : period = "monthly" ∨ period = "yearly") :
    (activate_subscription u p period now).subscription_plan = some p ∧
    (activate_subscription u p period now).subscription_started_at = some now ∧
    (activate_subscription u p period now).subscription_expires_at =
      some (now + (if period = "monthly" then 30 else 365) * 86400) ∧
    resolve_plan (activate_subscription u p period now) now =
      (p, activate_subscription u p period now) := by
  refine ⟨rfl, rfl, ?_, ?_⟩
  · rcases hper with hper | hper <;> subst hper <;> simp [activate_subscription]
  · rcases hp with hp | hp <;> subst hp <;>
      rcases hper with hper | hper <;> subst hper <;>
      simp [activate_subscription, resolve_plan]

/-- C8 witness: `activate_subscription(u, "pro", "yearly")` at time 1000
expires at `1000 + 365 * 86400` and immediately resolves to `"pro"`. -/
theorem activate_subscription_round_trip_witness :
    (activate_subscription ⟨9, some "free", Option.none, Option.none,
        Option.none, Option.none⟩ "pro" "yearly" 1000).subscription_expires_at =
      some (1000 + (if "yearly" = "monthly" then 30 else 365) * 86400) ∧
    resolve_plan (activate_subscription ⟨9, some "free", Option.none,
        Option.none, Option.none, Option.none⟩ "pro" "yearly" 1000) 1000 =
      ("pro", activate_subscription ⟨9, some "free", Option.none,
        Option.none, Option.none, Option.none⟩ "pro" "yearly" 1000) :=
  ⟨(activate_subscription_round_trip _ "pro" "yearly" 1000 (Or.inl rfl)
      (Or.inr rfl)).2.2.1,
   (activate_subscription_round_trip _ "pro" "yearly" 1000 (Or.inl rfl)
      (Or.inr rfl)).2.2.2⟩

/-- C9: `get_embedding` calls the provider with exactly the
`max_chars`-character prefix of an over-budget input, and passes inputs
of at most `max_chars` characters unchanged. -/
theorem get_embedding_truncates (embed : List Char → Except Unit (List ℚ))
    (text : List Char) :
    (max_chars < text.length →
      get_embedding embed text = embed (text.take max_chars) ∧
      (text.take max_chars).length = max_chars ∧
      text.take max_chars ++ text.drop max_chars = text) ∧
    (text.length ≤ max_chars → get_embedding embed text = embed text) := by
  constructor
  · intro h
    refine ⟨?_, ?_, List.take_append_drop _ _⟩
    · simp [get_embedding, h]
    · simp [List.length_take]
      omega
  · intro h
    simp [get_embedding, Nat.not_lt.mpr h]

/-- C9 witness: a 30001-character input is truncated to its first 30000
characters; a 3-character input is passed through unchanged. -/
theorem get_embedding_truncates_witness :
    (get_embedding (fun _ => Except.error ()) (List.replicate 30001 'a') =
      (fun _ => (Except.error () : Except Unit (List ℚ)))
        ((List.replicate 30001 'a').take max_chars) ∧
      ((List.replicate 30001 'a').take max_chars).length = max_chars ∧
      (List.replicate 30001 'a').take max_chars ++
        (List.replicate 30001 'a').drop max_chars = List.replicate 30001 'a') ∧
    get_embedding (fun _ => Except.error ()) ['a', 'b', 'c'] =
      (fun _ => (Except.error () : Except Unit (List ℚ))) ['a', 'b', 'c'] :=
  ⟨(get_embedding_truncates _ _).1 (by rw [List.length_replicate]; decide),
   (get_embedding_truncates _ _).2 (by decide)⟩

/-- C5: `search_with_threshold` is a pure post-filter of one `search`
call: its output is a sublist (subset in the same relative order) of the
`search` output, every returned similarity is at least `min_similarity`,
every `search` result meeting the threshold is kept, and every `search`
result strictly below it is dropped. -/
theorem search_with_threshold_post_filter (env : RagEnv) (query : List Char)
    (user_id : String) (limit : Nat) (m : ℚ) :
    (search_with_threshold env query user_id limit m).Sublist
      (search env query user_id limit) ∧
    (∀ r ∈ search_with_threshold env query user_id limit m,
      m ≤ r.similarity) ∧
    (∀ r ∈ search env query user_id limit, m ≤ r.similarity →
      r ∈ search_with_threshold env query user_id limit m) ∧
    (∀ r ∈ search env query user_id limit, r.similarity < m →
      r ∉ search_with_threshold env query user_id limit m) := by
  refine ⟨List.filter_sublist _, ?_, ?_, ?_⟩
  · intro r hr
    have := List.of_mem_filter hr
    simpa using this
  · intro r hr hm
    exact List.mem_filter.mpr ⟨hr, by simpa using hm⟩
  · intro r _ hm hmem
    have := List.of_mem_filter hmem
    simp at this
    exact absurd this (not_le.mpr hm)

/-- C5 witness: a concrete environment returning three results with
similarities 3/4, 1/4 and 1/2; with threshold 1/2 the 3/4 and 1/2
results are kept and the 1/4 result is dropped. -/
theorem search_with_threshold_post_filter_witness :
    (⟨11, "a", Option.none, (3 : ℚ)/4, 1⟩ : SearchResult) ∈
      search_with_threshold
        ⟨fun _ => Except.ok [1], fun _ _ _ => Except.ok
          [⟨11, "a", Option.none, (3 : ℚ)/4, 1⟩,
           ⟨12, "b", Option.none, (1 : ℚ)/4, 2⟩,
           ⟨13, "c", Option.none, (1 : ℚ)/2, 3⟩]⟩
        ['h'] "u" 5 ((1 : ℚ)/2) ∧
    (⟨12, "b", Option.none, (1 : ℚ)/4, 2⟩ : SearchResult) ∉
      search_with_threshold
        ⟨fun _ => Except.ok [1], fun _ _ _ => Except.ok
          [⟨11, "a", Option.none, (3 : ℚ)/4, 1⟩,
           ⟨12, "b", Option.none, (1 : ℚ)/4, 2⟩,
           ⟨13, "c", Option.none, (1 : ℚ)/2, 3⟩]⟩
        ['h'] "u" 5 ((1 : ℚ)/2) :=
  ⟨(search_with_threshold_post_filter _ ['h'] "u" 5 _).2.2.1 _
      (List.mem_cons_self _ _) (by norm_num),
   (search_with_threshold_post_filter _ ['h'] "u" 5 _).2.2.2 _
      (List.mem_cons_of_mem _ (List.mem_cons_self _ _)) (by norm_num)⟩

/-- C6: `search` returns the empty list, rather than propagating the
error, whenever the embedding call fails or the vector-store RPC
fails. -/
theorem search_empty_on_provider_failure (env : RagEnv) (query : List Char)
    (user_id : String) (limit : Nat) :
    (get_embedding env.embed query = Except.error () →
      search env query user_id limit = []) ∧
    (∀ emb, get_embedding env.embed query = Except.ok emb →
      env.rpc emb limit user_id = Except.error () →
      search env query user_id limit = []) := by
  constructor
  · intro h
    simp [search, h]
  · intro emb h1 h2
    simp [search, h1, h2]

/-- C6 witness: an environment whose embedding call raises, and one
whose RPC raises, both yield an empty search result. -/
theorem search_empty_on_provider_failure_witness :
    search ⟨fun _ => Except.error (), fun _ _ _ => Except.ok []⟩
      ['q'] "u" 5 = [] ∧
    search ⟨fun _ => Except.ok [1], fun _ _ _ => Except.error ()⟩
      ['q'] "u" 5 = [] :=
  ⟨(search_empty_on_provider_failure
      ⟨fun _ => Except.error (), fun _ _ _ => Except.ok []⟩ ['q'] "u" 5).1 rfl,
   (search_empty_on_provider_failure
      ⟨fun _ => Except.ok [1], fun _ _ _ => Except.error ()⟩ ['q'] "u" 5).2
     [1] rfl rfl⟩

/-- Helper: under distinct row ids, a present id is matched by exactly
one row. -/
theorem countP_id_eq_one (l : List NoteEmbRow) (nid : String)
    (hn : (l.map NoteEmbRow.id).Nodup)
    (he : ∃ a ∈ l, a.id = nid) :
    l.countP (fun n => decide (n.id = nid)) = 1 := by
  induction l with
  | nil => simp at he
  | cons a l ih =>
    simp only [List.map_cons, List.nodup_cons] at hn
    by_cases ha : a.id = nid
    · have hzero : l.countP (fun n => decide (n.id = nid)) = 0 := by
        rw [List.countP_eq_zero]
        intro b hb
        simp only [decide_eq_true_eq]
        intro hbid
        have hmem : b.id ∈ l.map NoteEmbRow.id := List.mem_map_of_mem _ hb
        rw [hbid, ← ha] at hmem
        exact hn.1 hmem
      rw [List.countP_cons]
      simp [ha, hzero]
    · rcases he with ⟨b, hb, hbid⟩
      rcases List.mem_cons.mp hb with rfl | hbl
      · exact absurd hbid ha
      · rw [List.countP_cons]
        simp only [decide_eq_true_eq, ha]
        simpa using ih hn.2 ⟨b, hbl, hbid⟩

/-- C7: whenever `index_note` returns `false` — embedding failure, store
failure, or no matching note — the store is left exactly as it was
(never a partial write); when it succeeds it writes the freshly computed
embedding onto the rows matching `note_id`, preserves every other row
and the store's length, and under distinct note ids exactly one row is
matched by the write. -/
theorem index_note_atomic (embed : List Char → Except Unit (List ℚ))
    (storeOk : Bool) (store : List NoteEmbRow) (note_id : String)
    (text : List Char) :
    ((index_note embed storeOk store note_id text).1 = false →
      (index_note embed storeOk store note_id text).2 = store) ∧
    (∀ emb, get_embedding embed text = Except.ok emb →
      (index_note embed true store note_id text).1 = true →
      (index_note embed true store note_id text).2.length = store.length ∧
      (∀ n ∈ store, n.id ≠ note_id →
        n ∈ (index_note embed true store note_id text).2) ∧
      (∀ n ∈ (index_note embed true store note_id text).2,
        n.id = note_id → n.embedding = some emb) ∧
      ((store.map NoteEmbRow.id).Nodup →
        store.countP (fun n => decide (n.id = note_id)) = 1)) := by
  constructor
  · intro hfalse
    unfold index_note at hfalse ⊢
    cases hemb : get_embedding embed text with
    | error e => simp [hemb]
    | ok emb =>
      simp only [hemb] at hfalse ⊢
      cases storeOk with
      | false => simp
      | true =>
        simp only [if_true] at hfalse ⊢
        have hnone : ∀ n ∈ store, ¬(n.id = note_id) := by
          intro n hn hid
          have : store.any (fun n => decide (n.id = note_id)) = true :=
            List.any_eq_true.mpr ⟨n, hn, by simp [hid]⟩
          simp only [this] at hfalse
          exact Bool.true_eq_false.mp hfalse
        calc store.map (fun n => if n.id = note_id
                then { n with embedding := some emb } else n)
            = store.map id := List.map_congr_left (fun n hn => by
                simp [hnone n hn])
          _ = store := List.map_id _
  · intro emb hemb htrue
    unfold index_note at htrue ⊢
    simp only [hemb, if_true] at htrue ⊢
    refine ⟨List.length_map _ _, ?_, ?_, ?_⟩
    · intro n hn hid
      have : (if n.id = note_id then { n with embedding := some emb } else n)
          = n := by simp [hid]
      rw [← this]
      exact List.mem_map_of_mem _ hn
    · intro n hn hid
      rcases List.mem_map.mp hn with ⟨a, _, ha⟩
      by_cases haid : a.id = note_id
      · rw [if_pos haid] at ha
        rw [← ha]
      · rw [if_neg haid] at ha
        rw [← ha] at hid
        exact absurd hid haid
    · intro hnodup
      apply countP_id_eq_one store note_id hnodup
      rcases List.any_eq_true.mp htrue with ⟨a, ha, haid⟩
      exact ⟨a, ha, by simpa using haid⟩

/-- C7 witness: with a failing provider the store survives unchanged and
`index_note` reports failure; with a working provider and a store
holding the target note, indexing succeeds, the target row carries the
new embedding, the other row is untouched, and exactly one row was
matched. -/
theorem index_note_atomic_witness :
    (index_note (fun _ => Except.error ()) true
      [⟨"n1", Option.none⟩, ⟨"n2", some [5]⟩] "n1" ['x']).2 =
      [⟨"n1", Option.none⟩, ⟨"n2", some [5]⟩] ∧
    ((index_note (fun _ => Except.ok [2]) true
        [⟨"n1", Option.none⟩, ⟨"n2", some [5]⟩] "n1" ['x']).2.length = 2 ∧
     (⟨"n2", some [5]⟩ : NoteEmbRow) ∈
       (index_note (fun _ => Except.ok [2]) true
         [⟨"n1", Option.none⟩, ⟨"n2", some [5]⟩] "n1" ['x']).2 ∧
     ([⟨"n1", Option.none⟩, ⟨"n2", some [5]⟩] :
        List NoteEmbRow).countP (fun n => decide (n.id = "n1")) = 1) :=
  ⟨(index_note_atomic (fun _ => Except.error ()) true
      [⟨"n1", Option.none⟩, ⟨"n2", some [5]⟩] "n1" ['x']).1 rfl,
   by
    have h := (index_note_atomic (fun _ => Except.ok [2]) true
      [⟨"n1", Option.none⟩, ⟨"n2", some [5]⟩] "n1" ['x']).2 [2] rfl rfl
    exact ⟨h.1, h.2.1 _ (List.mem_cons_of_mem _ (List.mem_cons_self _ _))
      (by decide), h.2.2.2 (by decide)⟩⟩

/-- C1: for a user whose resolved plan is the free tier with chat
disabled, `can_use_feature(u, "chat")` returns
`(false, "free", free_plan)`; and for every feature string the returned
reason lies in the closed enum
`{free_plan, not_available, limit_reached, none}`. -/
theorem can_use_feature_free_chat (u : UserRow)
    (table : String → Option SubscriptionLimits) (usage : UsageStats)
    (now : Nat)
    (hplan : (resolve_plan u now).1 = "free")
    (hchat : (get_limits table "free").ai_chat_enabled = false) :
    can_use_feature u table usage now "chat" =
      (false, "free", Reason.free_plan) ∧
    ∀ feature, (can_use_feature u table usage now feature).2.2 ∈
      [Reason.free_plan, Reason.not_available, Reason.limit_reached,
       Reason.none] := by
  constructor
  · simp [can_use_feature, hplan, hchat]
  · intro feature
    have h : ∀ r : Reason, r ∈ [Reason.free_plan, Reason.not_available,
        Reason.limit_reached, Reason.none] := by
      intro r
      cases r <;> simp
    exact h _

/-- C1 witness: a stored `free` user against a reference table with no
rows (so the free tier takes `defaultLimits`, whose `ai_chat_enabled` is
false) is denied chat with reason `free_plan`. -/
theorem can_use_feature_free_chat_witness :
    can_use_feature
      ⟨1, some "free", Option.none, Option.none, Option.none, Option.none⟩
      (fun _ => Option.none) zeroUsage 0 "chat" =
      (false, "free", Reason.free_plan) :=
  (can_use_feature_free_chat
    ⟨1, some "free", Option.none, Option.none, Option.none, Option.none⟩
    (fun _ => Option.none) zeroUsage 0 rfl rfl).1

/-- C2: evaluation of `increment_usage` at the racy schedule.  Starting
from a month row with `summaries_used = 0`, two increments of 1 whose
read steps both precede either write step leave the counter at 1 — the
second write overwrites the first with a value computed from its stale
read — whereas the same two increments run back to back leave it at 2.
The source's read-then-write (`notes_service.py` lines 337-358) has no
row lock or storage-side atomic increment, so this interleaving is
admissible for two writers (e.g. the bot and API processes). -/
theorem increment_usage_lost_update :
    (usage_write
        (usage_write [⟨1, 7, 0, 0, 0, 0⟩] 7 0 UsageType.summaries 1 2
          (usage_read [⟨1, 7, 0, 0, 0, 0⟩] 7 0))
        7 0 UsageType.summaries 1 3
        (usage_read [⟨1, 7, 0, 0, 0, 0⟩] 7 0)).map
      (fun r => r.summaries_used) = [1] ∧
    ((increment_usage
        ((increment_usage [⟨1, 7, 0, 0, 0, 0⟩] 7 0
          UsageType.summaries 1 2).2)
        7 0 UsageType.summaries 1 3).2).map
      (fun r => r.summaries_used) = [2] := by
  decide

/-- C10: `update_note` with a `NoteUpdate` in which no field is set
performs no write — the store comes back exactly as it was — and returns
precisely the note currently stored for `(note_id, user_id)`. -/
theorem update_note_unset_noop (store : List NoteRow) (note_id user_id : Nat)
    (upd : NoteUpdate) (hc : upd.content = Option.none)
    (hs : upd.summary = Option.none) :
    update_note store note_id user_id upd =
      (get_note store note_id user_id, store) := by
  simp [update_note, hc, hs]

/-- C10 witness: an empty update against a one-note store returns the
stored note and leaves the store untouched. -/
theorem update_note_unset_noop_witness :
    update_note
      [⟨1, 2, "hello", Option.none, "text", Option.none, Option.none, false⟩]
      1 2 ⟨Option.none, Option.none⟩ =
    (some ⟨1, 2, "hello", Option.none, "text", Option.none, Option.none,
       false⟩,
     [⟨1, 2, "hello", Option.none, "text", Option.none, Option.none,
       false⟩]) := by
  rw [update_note_unset_noop _ _ _ _ rfl rfl]
  decide

end FixNote
